import Mathlib

/-!
Shallow embedding of the stealth script generator (`src/stealth.ts`, enhanced
variant, together with the basic variant of the same module).

The generator builds a browser-injection payload by pushing a sequence of
string templates onto an array, gated by fields of a `StealthConfig` record,
and joining them with `"\n"`.  Every pushed template in the source is a plain
template literal with **no** interpolation (`${...}`) whatsoever, so the
payload text is a pure function of the configuration; the `Math.random()`
occurrences one sees in the source all sit *inside* those literals and are
part of the emitted JavaScript, evaluated only when the payload later runs in
a browser.

Each push is represented here by one constructor of `Recipe`; `recipeText`
carries the exact template text (braces written with `\x7b`/`\x7d` escapes,
newlines with `\n`), and `stealthRecipes` mirrors the sequence of `if`-gated
pushes of `generateStealthScript` in source order.  The payload is then the
`"\n"`-join of the rendered recipes, exactly as `scripts.join('\n')`.

The ambient randomization source (`Math.random`) is modelled as a stream of
natural-number draws `Rand := Nat → Nat`; the JavaScript idiom
`Math.floor(Math.random() * pool.length)`, whose value ranges exactly over
`0 .. pool.length - 1`, is modelled as `draw % pool.length`, which has the
same range.
-/

namespace AgentBrowser

/-- Ambient randomization source: an infinite stream of natural draws.  Draw
`k` of the stream stands for the `k`-th `Math.random()` consultation made by
a call. -/
abbrev Rand := Nat → Nat

/-- The `StealthConfig` interface: every field is optional in TypeScript, so
each boolean field is an `Option Bool` (`none` = absent) and the custom
user-agent field is an `Option String`. -/
structure StealthConfig where
  webdriver : Option Bool := none
  navigator : Option Bool := none
  navigatorLanguages : Option Bool := none
  navigatorPlatform : Option Bool := none
  navigatorHardwareConcurrency : Option Bool := none
  navigatorDeviceMemory : Option Bool := none
  screenWidth : Option Bool := none
  screenHeight : Option Bool := none
  pixelRatio : Option Bool := none
  colorDepth : Option Bool := none
  touchSupport : Option Bool := none
  chromeRuntime : Option Bool := none
  permissions : Option Bool := none
  windowFrame : Option Bool := none
  doNotTrack : Option Bool := none
  plugins : Option Bool := none
  mediaDevices : Option Bool := none
  customUserAgent : Option String := none
  canvasNoise : Option Bool := none
  webglNoise : Option Bool := none
  audioContextNoise : Option Bool := none
  behaviorRandomization : Option Bool := none
deriving DecidableEq, Repr

/-- The exported `defaultStealthConfig` constant of the enhanced variant. -/
def defaultStealthConfig : StealthConfig :=
  { webdriver := some true
    navigator := some true
    navigatorLanguages := some true
    navigatorPlatform := some true
    navigatorHardwareConcurrency := some true
    navigatorDeviceMemory := some true
    screenWidth := some true
    screenHeight := some true
    pixelRatio := some true
    colorDepth := some true
    touchSupport := some true
    chromeRuntime := some true
    permissions := some true
    windowFrame := some true
    doNotTrack := some false
    plugins := some true
    mediaDevices := some true
    canvasNoise := some true
    webglNoise := some true
    audioContextNoise := some true
    behaviorRandomization := some true }

/-- One constructor per `scripts.push(...)` of the enhanced
`generateStealthScript`, in source order.  The basic variant pushes exactly
the first 26 of these (byte-identical templates). -/
inductive Recipe where
  | webdriver
  | languagesLong
  | language
  | languagesShort
  | platform
  | hardwareConcurrency
  | deviceMemory
  | screenWidth
  | screenHeight
  | screenAvailWidth
  | screenAvailHeight
  | devicePixelRatio
  | screenColorDepth
  | maxTouchPoints
  | touchSupport
  | chromeRuntime
  | permissions
  | frameElement
  | frames
  | doNotTrack
  | plugins
  | mimeTypes
  | mediaDevices
  | webglVendor
  | userActivation
  | connection
  | canvasNoise
  | webglNoise
  | audioNoise
  | behavior
  | speechSynthesis
  | gamepads
  | battery
  | clipboard
deriving DecidableEq, Repr

/-- Exact template text of each push (newlines as `\n`, braces as
`\x7b`/`\x7d`). -/
def recipeText : Recipe → String
  | .webdriver => "\n      Object.defineProperty(navigator, 'webdriver', \x7b\n        get: () => undefined,\n        configurable: true,\n        enumerable: true,\n      \x7d);\n    "
  | .languagesLong => "\n      Object.defineProperty(navigator, 'languages', \x7b\n        get: () => ['en-US', 'en', 'ja', 'zh-CN'],\n        configurable: true,\n        enumerable: true,\n      \x7d);\n    "
  | .language => "\n      Object.defineProperty(navigator, 'language', \x7b\n        get: () => 'en-US',\n        configurable: true,\n        enumerable: true,\n      \x7d);\n    "
  | .languagesShort => "\n      Object.defineProperty(navigator, 'languages', \x7b\n        get: () => ['en-US', 'en'],\n        configurable: true,\n        enumerable: true,\n      \x7d);\n    "
  | .platform => "\n      Object.defineProperty(navigator, 'platform', \x7b\n        get: () => 'Win32',\n        configurable: true,\n        enumerable: true,\n      \x7d);\n    "
  | .hardwareConcurrency => "\n      Object.defineProperty(navigator, 'hardwareConcurrency', \x7b\n        get: () => 4,\n        configurable: true,\n        enumerable: true,\n      \x7d);\n    "
  | .deviceMemory => "\n      Object.defineProperty(navigator, 'deviceMemory', \x7b\n        get: () => 8,\n        configurable: true,\n        enumerable: true,\n      \x7d);\n    "
  | .screenWidth => "\n      Object.defineProperty(screen, 'width', \x7b\n        get: () => 1920,\n        configurable: true,\n        enumerable: true,\n      \x7d);\n    "
  | .screenHeight => "\n      Object.defineProperty(screen, 'height', \x7b\n        get: () => 1080,\n        configurable: true,\n        enumerable: true,\n      \x7d);\n    "
  | .screenAvailWidth => "\n      Object.defineProperty(screen, 'availWidth', \x7b\n        get: () => 1920,\n        configurable: true,\n        enumerable: true,\n      \x7d);\n    "
  | .screenAvailHeight => "\n      Object.defineProperty(screen, 'availHeight', \x7b\n        get: () => 1040,\n        configurable: true,\n        enumerable: true,\n      \x7d);\n    "
  | .devicePixelRatio => "\n      Object.defineProperty(window, 'devicePixelRatio', \x7b\n        get: () => 1,\n        configurable: true,\n        enumerable: true,\n      \x7d);\n    "
  | .screenColorDepth => "\n      Object.defineProperty(screen, 'colorDepth', \x7b\n        get: () => 24,\n        configurable: true,\n        enumerable: true,\n      \x7d);\n    "
  | .maxTouchPoints => "\n      Object.defineProperty(navigator, 'maxTouchPoints', \x7b\n        get: () => 0,\n        configurable: true,\n        enumerable: true,\n      \x7d);\n    "
  | .touchSupport => "\n      Object.defineProperty(navigator, 'touchSupport', \x7b\n        get: () => true,\n        configurable: true,\n        enumerable: true,\n      \x7d);\n    "
  | .chromeRuntime => "\n      Object.defineProperty(window, 'chrome', \x7b\n        get: () => (\x7b\n          runtime: \x7b\n            onInstalled: \x7b addListener: () => \x7b\x7d \x7d,\n            onStartup: \x7b addListener: () => \x7b\x7d \x7d,\n            onSuspend: \x7b addListener: () => \x7b\x7d \x7d,\n            onUpdateAvailable: \x7b addListener: () => \x7b\x7d \x7d,\n            requestUpdateCheck: () => (\x7b status: 'no_update' \x7d),\n            restart: () => \x7b\x7d,\n            connect: () => (\x7b onMessage: \x7b addListener: () => \x7b\x7d \x7d, onDisconnect: \x7b addListener: () => \x7b\x7d \x7d, postMessage: () => \x7b\x7d, disconnect: () => \x7b\x7d \x7d),\n            sendMessage: () => Promise.resolve(\x7b\x7d),\n          \x7d,\n          loadTimes: () => (\x7b\n            requestTime: Date.now() / 1000,\n            startLoadTime: Date.now() / 1000,\n            commitLoadTime: Date.now() / 1000,\n            finishLoadTime: Date.now() / 1000,\n            firstPaintTime: Date.now() / 1000,\n            firstContentfulPaintTime: Date.now() / 1000,\n            largestContentfulPaintTime: Date.now() / 1000,\n          \x7d),\n          csi: () => (\x7b\n            startE: Date.now(),\n            startS: Date.now(),\n            startC: Date.now(),\n            startEcs: Date.now(),\n            endEcs: Date.now(),\n          \x7d),\n          app: \x7b\n            GET_IS_INSTALLED: () => false,\n            INSTALL_TYPE: () => 'none',\n            getDetails: () => (\x7b id: '', isExternal: false, launchURL: '', installedTime: 0, lastUpdateTime: 0 \x7d),\n          \x7d,\n          webstore: \x7b\n            onInstallStageChanged: \x7b addListener: () => \x7b\x7d \x7d,\n            onDownloadProgress: \x7b addListener: () => \x7b\x7d \x7d,\n            install: () => Promise.resolve(),\n          \x7d,\n          runtime: \x7b\n            id: '',\n            sendMessage: () => Promise.resolve(),\n            onMessageExternal: \x7b addListener: () => \x7b\x7d \x7d,\n            onConnectExternal: \x7b addListener: () => \x7b\x7d \x7d,\n          \x7d,\n        \x7d),\n        configurable: true,\n        enumerable: true,\n      \x7d);\n    "
  | .permissions => "\n      const originalQuery = navigator.permissions.query;\n      navigator.permissions.query = (parameters) => \x7b\n        if (parameters.name === 'notifications') \x7b\n          return Promise.resolve(\x7b state: 'denied', onchange: null \x7d);\n        \x7d\n        return originalQuery(parameters);\n      \x7d;\n    "
  | .frameElement => "\n      Object.defineProperty(window, 'frameElement', \x7b\n        get: () => null,\n        configurable: true,\n        enumerable: true,\n      \x7d);\n    "
  | .frames => "\n      Object.defineProperty(window, 'frames', \x7b\n        get: () => window,\n        configurable: true,\n        enumerable: true,\n      \x7d);\n    "
  | .doNotTrack => "\n      Object.defineProperty(navigator, 'doNotTrack', \x7b\n        get: () => 'unspecified',\n        configurable: true,\n        enumerable: true,\n      \x7d);\n    "
  | .plugins => "\n      const pluginData = [\n        \x7b name: 'Chrome PDF Plugin', filename: 'internal-pdf-viewer', description: 'Portable Document Format', mimeTypes: [\x7b type: 'application/pdf', suffixes: 'pdf' \x7d] \x7d,\n        \x7b name: 'Chrome PDF Viewer', filename: 'mhjfbmdgcfjbbpaeojofohoefgiehjai', description: 'Portable Document Format', mimeTypes: [\x7b type: 'application/pdf', suffixes: 'pdf' \x7d] \x7d,\n        \x7b name: 'Native Client', filename: 'internal-nacl-plugin', description: 'Native Client executable', mimeTypes: [\x7b type: 'application/x-nacl', suffixes: '' \x7d, \x7b type: 'application/x-pnacl', suffixes: '' \x7d] \x7d,\n      ];\n      \n      Object.defineProperty(navigator, 'plugins', \x7b\n        get: () => pluginData,\n        configurable: true,\n        enumerable: true,\n      \x7d);\n    "
  | .mimeTypes => "\n      Object.defineProperty(navigator, 'mimeTypes', \x7b\n        get: () => \x7b\n          const mimeTypes = [];\n          navigator.plugins.forEach((plugin) => \x7b\n            plugin.forEach((mimeType) => \x7b\n              mimeTypes.push(mimeType);\n            \x7d);\n          \x7d);\n          return mimeTypes;\n        \x7d,\n        configurable: true,\n        enumerable: true,\n      \x7d);\n    "
  | .mediaDevices => "\n      Object.defineProperty(navigator, 'mediaDevices', \x7b\n        get: () => (\x7b\n          enumerateDevices: () => Promise.resolve([\n            \x7b deviceId: 'default', kind: 'audioinput', label: 'Default - Microphone', groupId: 'default' \x7d,\n            \x7b deviceId: 'default', kind: 'videoinput', label: 'Default - Camera', groupId: 'default' \x7d,\n          ]),\n          getUserMedia: () => Promise.reject(new Error('Not allowed')),\n          getDisplayMedia: () => Promise.reject(new Error('Not allowed')),\n          addEventListener: () => \x7b\x7d,\n          removeEventListener: () => \x7b\x7d,\n          dispatchEvent: () => true,\n        \x7d),\n        configurable: true,\n        enumerable: true,\n      \x7d);\n    "
  | .webglVendor => "\n    const getParameter = WebGLRenderingContext.prototype.getParameter;\n    WebGLRenderingContext.prototype.getParameter = function(parameter) \x7b\n      if (parameter === 37445) \x7b\n        return 'Intel Open Source Technology Center';\n      \x7d\n      if (parameter === 37446) \x7b\n        return 'Mesa DRI Intel(R) UHD Graphics 630 (CFL GT2)';\n      \x7d\n      return getParameter.call(this, parameter);\n    \x7d;\n  "
  | .userActivation => "\n    // Remove CDP automation flags\n    Object.defineProperty(navigator, 'userActivation', \x7b\n      get: () => (\x7b isActive: true, hasBeenActive: true \x7d),\n      configurable: true,\n    \x7d);\n  "
  | .connection => "\n    Object.defineProperty(navigator, 'connection', \x7b\n      get: () => (\x7b\n        downlink: 10,\n        effectiveType: '4g',\n        rtt: 50,\n        saveData: false,\n        type: 'wifi',\n        addEventListener: () => \x7b\x7d,\n        removeEventListener: () => \x7b\x7d,\n        dispatchEvent: () => true,\n      \x7d),\n      configurable: true,\n      enumerable: true,\n    \x7d);\n  "
  | .canvasNoise => "\n      // Canvas fingerprint spoofing with random noise\n      const canvasNoise = () => \x7b\n        const noise = Math.random() * 0.000001;\n        return noise;\n      \x7d;\n      \n      const originalToDataURL = HTMLCanvasElement.prototype.toDataURL;\n      HTMLCanvasElement.prototype.toDataURL = function(type, encoderOptions) \x7b\n        if (this.width === 0 || this.height === 0) \x7b\n          return originalToDataURL.call(this, type, encoderOptions);\n        \x7d\n        const ctx = this.getContext('2d');\n        if (ctx) \x7b\n          // Add subtle noise to pixel data\n          const imageData = ctx.getImageData(0, 0, this.width, this.height);\n          const data = imageData.data;\n          for (let i = 0; i < data.length; i += 4) \x7b\n            const noise = (Math.random() - 0.5) * 2;\n            data[i] = Math.max(0, Math.min(255, data[i] + noise));\n            data[i + 1] = Math.max(0, Math.min(255, data[i + 1] + noise));\n            data[i + 2] = Math.max(0, Math.min(255, data[i + 2] + noise));\n          \x7d\n          ctx.putImageData(imageData, 0, 0);\n        \x7d\n        return originalToDataURL.call(this, type, encoderOptions);\n      \x7d;\n      \n      const originalGetImageData = CanvasRenderingContext2D.prototype.getImageData;\n      CanvasRenderingContext2D.prototype.getImageData = function(sx, sy, sw, sh) \x7b\n        const data = originalGetImageData.call(this, sx, sy, sw, sh);\n        // Add slight noise to prevent exact fingerprinting\n        for (let i = 0; i < data.data.length; i++) \x7b\n          if (Math.random() > 0.99) \x7b\n            data.data[i] = (data.data[i] + Math.random() * 0.5) % 256;\n          \x7d\n        \x7d\n        return data;\n      \x7d;\n    "
  | .webglNoise => "\n      // WebGL fingerprint spoofing\n      const webglNoise = () => \x7b\n        return Math.random() * 0.0001;\n      \x7d;\n      \n      // Spoof WebGL vendor and renderer\n      const getParameter = WebGLRenderingContext.prototype.getParameter;\n      WebGLRenderingContext.prototype.getParameter = function(parameter) \x7b\n        // Add noise to numeric parameters\n        if (typeof parameter === 'number') \x7b\n          const noise = webglNoise();\n          const original = getParameter.call(this, parameter);\n          if (typeof original === 'number') \x7b\n            return original + noise;\n          \x7d\n        \x7d\n        \n        // Spoof vendor strings\n        if (parameter === 37445) \x7b\n          return 'NVIDIA Corporation';\n        \x7d\n        if (parameter === 37446) \x7b\n          return 'GeForce RTX 3080/PCIe/SSE2';\n        \x7d\n        if (parameter === 7937) \x7b\n          return 'WebKit';\n        \x7d\n        if (parameter === 7938) \x7b\n          return 'WebGL 2.0';\n        \x7d\n        return getParameter.call(this, parameter);\n      \x7d;\n      \n      // Add noise to WebGL rendering\n      const originalClear = WebGLRenderingContext.prototype.clear;\n      WebGLRenderingContext.prototype.clear = function(mask) \x7b\n        // Randomize clear color slightly\n        if (Math.random() > 0.95) \x7b\n          this.clearColor(\n            Math.random() * 0.1,\n            Math.random() * 0.1,\n            Math.random() * 0.1,\n            1.0\n          );\n        \x7d\n        return originalClear.call(this, mask);\n      \x7d;\n      \n      // Spoof WebGL2 parameters\n      const getParameter2 = WebGL2RenderingContext.prototype.getParameter;\n      WebGL2RenderingContext.prototype.getParameter = function(parameter) \x7b\n        if (parameter === 37445) \x7b\n          return 'NVIDIA Corporation';\n        \x7d\n        if (parameter === 37446) \x7b\n          return 'GeForce RTX 3080/PCIe/SSE2';\n        \x7d\n        return getParameter2.call(this, parameter);\n      \x7d;\n    "
  | .audioNoise => "\n      // AudioContext fingerprint spoofing\n      const audioNoise = () => \x7b\n        return Math.random() * 0.0000001;\n      \x7d;\n      \n      const originalGetChannelData = AudioContext.prototype.createBuffer;\n      AudioContext.prototype.createBuffer = function(numberOfChannels, length, sampleRate) \x7b\n        const buffer = originalGetChannelData.call(this, numberOfChannels, length, sampleRate);\n        // Add tiny noise to prevent exact fingerprinting\n        for (let i = 0; i < buffer.numberOfChannels; i++) \x7b\n          const channelData = buffer.getChannelData(i);\n          for (let j = 0; j < channelData.length; j += 1000) \x7b\n            channelData[j] += audioNoise();\n          \x7d\n        \x7d\n        return buffer;\n      \x7d;\n      \n      const originalDecodeAudioData = AudioContext.prototype.decodeAudioData;\n      AudioContext.prototype.decodeAudioData = function(audioData, successCallback, errorCallback) \x7b\n        const success = successCallback;\n        const error = errorCallback;\n        return originalDecodeAudioData.call(this, audioData, \n          (decodedBuffer) => \x7b\n            // Add noise to decoded buffer\n            if (decodedBuffer) \x7b\n              for (let i = 0; i < decodedBuffer.numberOfChannels; i++) \x7b\n                const channelData = decodedBuffer.getChannelData(i);\n                for (let j = 0; j < channelData.length; j += 500) \x7b\n                  channelData[j] += audioNoise();\n                \x7d\n              \x7d\n            \x7d\n            if (success) success(decodedBuffer);\n          \x7d,\n          error\n        );\n      \x7d;\n    "
  | .behavior => "\n      // Human behavior randomization\n      \n      // Randomize scroll behavior\n      const originalScroll = window.scrollTo;\n      window.scrollTo = function(x, y) \x7b\n        if (typeof x === 'object') \x7b\n          x = x.left || 0;\n          y = x.top || 0;\n        \x7d\n        // Add small random offset\n        const randomX = x + (Math.random() - 0.5) * 10;\n        const randomY = y + (Math.random() - 0.5) * 10;\n        originalScroll.call(this, Math.max(0, randomX), Math.max(0, randomY));\n      \x7d;\n      \n      // Add random mouse movements simulation\n      let mouseMoveCount = 0;\n      document.addEventListener('mousemove', () => \x7b\n        mouseMoveCount++;\n      \x7d);\n      \n      // Randomize click timing\n      const originalClick = HTMLElement.prototype.click;\n      HTMLElement.prototype.click = function() \x7b\n        // Simulate human-like delay\n        const delay = Math.random() * 50 + 10;\n        setTimeout(() => \x7b\n          originalClick.call(this);\n        \x7d, delay);\n      \x7d;\n      \n      // Randomize focus events\n      const originalFocus = HTMLElement.prototype.focus;\n      HTMLElement.prototype.focus = function() \x7b\n        const delay = Math.random() * 30 + 5;\n        setTimeout(() => \x7b\n          originalFocus.call(this);\n        \x7d, delay);\n      \x7d;\n      \n      // Spoof document.hidden\n      Object.defineProperty(document, 'hidden', \x7b\n        get: () => false,\n        configurable: true,\n      \x7d);\n      \n      Object.defineProperty(document, 'visibilityState', \x7b\n        get: () => 'visible',\n        configurable: true,\n      \x7d);\n      \n      // Add random viewport offset\n      Object.defineProperty(window, 'scrollX', \x7b\n        get: () => Math.floor(Math.random() * 5),\n        configurable: true,\n      \x7d);\n      \n      Object.defineProperty(window, 'scrollY', \x7b\n        get: () => Math.floor(Math.random() * 5),\n        configurable: true,\n      \x7d);\n      \n      // Randomize Performance API\n      const originalNow = performance.now;\n      performance.now = function() \x7b\n        const now = originalNow.call(this);\n        // Add small random offset to prevent timing fingerprinting\n        return now + (Math.random() - 0.5) * 0.5;\n      \x7d;\n      \n      // Add random variation to Date\n      const originalDate = Date;\n      Date = function(...args) \x7b\n        if (args.length === 0) \x7b\n          return new originalDate(originalDate.now() + (Math.random() - 0.5) * 100);\n        \x7d\n        return new originalDate(...args);\n      \x7d;\n      Date.now = function() \x7b\n        return originalDate.now() + (Math.random() - 0.5) * 100;\n      \x7d;\n    "
  | .speechSynthesis => "\n    Object.defineProperty(window, 'speechSynthesis', \x7b\n      get: () => (\x7b\n        pending: false,\n        speaking: false,\n        paused: false,\n        addEventListener: () => \x7b\x7d,\n        removeEventListener: () => \x7b\x7d,\n        dispatchEvent: () => true,\n        cancel: () => \x7b\x7d,\n        speak: () => \x7b\x7d,\n        pause: () => \x7b\x7d,\n        resume: () => \x7b\x7d,\n        getVoices: () => [],\n      \x7d),\n      configurable: true,\n    \x7d);\n  "
  | .gamepads => "\n    Object.defineProperty(navigator, 'getGamepads', \x7b\n      get: () => () => Array(4).fill(null),\n      configurable: true,\n    \x7d);\n  "
  | .battery => "\n    Object.defineProperty(navigator, 'getBattery', \x7b\n      get: () => () => Promise.resolve(\x7b\n        charging: true,\n        chargingTime: 0,\n        dischargingTime: Infinity,\n        level: 1,\n        addEventListener: () => \x7b\x7d,\n        removeEventListener: () => \x7b\x7d,\n      \x7d),\n      configurable: true,\n    \x7d);\n  "
  | .clipboard => "\n    Object.defineProperty(navigator, 'clipboard', \x7b\n      get: () => (\x7b\n        readText: () => Promise.reject(new Error('Clipboard access denied')),\n        writeText: () => Promise.reject(new Error('Clipboard access denied')),\n        read: () => Promise.reject(new Error('Clipboard access denied')),\n        write: () => Promise.reject(new Error('Clipboard access denied')),\n        addEventListener: () => \x7b\x7d,\n        removeEventListener: () => \x7b\x7d,\n      \x7d),\n      configurable: true,\n    \x7d);\n  "

/-- Sequence of recipes pushed by the enhanced `generateStealthScript` for a
given configuration: each `if (config.key !== false)` of the source becomes a
conditionally included block, in source order; the WebGL-vendor,
user-activation, connection, speech-synthesis, gamepad, battery and clipboard
pushes are unconditional in the source. -/
def stealthRecipes (config : StealthConfig) : List Recipe :=
  (if config.webdriver ≠ some false then [.webdriver] else []) ++
  (if config.navigator ≠ some false then [.languagesLong, .language, .languagesShort] else []) ++
  (if config.navigatorPlatform ≠ some false then [.platform] else []) ++
  (if config.navigatorHardwareConcurrency ≠ some false then [.hardwareConcurrency] else []) ++
  (if config.navigatorDeviceMemory ≠ some false then [.deviceMemory] else []) ++
  (if config.screenWidth ≠ some false ∨ config.screenHeight ≠ some false ∨
      config.pixelRatio ≠ some false ∨ config.colorDepth ≠ some false then
    [.screenWidth, .screenHeight, .screenAvailWidth, .screenAvailHeight,
     .devicePixelRatio, .screenColorDepth] else []) ++
  (if config.touchSupport ≠ some false then [.maxTouchPoints, .touchSupport] else []) ++
  (if config.chromeRuntime ≠ some false then [.chromeRuntime] else []) ++
  (if config.permissions ≠ some false then [.permissions] else []) ++
  (if config.windowFrame ≠ some false then [.frameElement, .frames] else []) ++
  (if config.doNotTrack ≠ some false then [.doNotTrack] else []) ++
  (if config.plugins ≠ some false then [.plugins, .mimeTypes] else []) ++
  (if config.mediaDevices ≠ some false then [.mediaDevices] else []) ++
  [.webglVendor, .userActivation, .connection] ++
  (if config.canvasNoise ≠ some false then [.canvasNoise] else []) ++
  (if config.webglNoise ≠ some false then [.webglNoise] else []) ++
  (if config.audioContextNoise ≠ some false then [.audioNoise] else []) ++
  (if config.behaviorRandomization ≠ some false then [.behavior] else []) ++
  [.speechSynthesis, .gamepads, .battery, .clipboard]

/-- Enhanced `generateStealthScript(config)`: renders the active recipes and
joins them with `"\n"` (`scripts.join('\n')`). -/
def generateStealthScript (config : StealthConfig := defaultStealthConfig) : String :=
  String.intercalate "\n" ((stealthRecipes config).map recipeText)

/-- Sequence of recipes pushed by the basic variant's `generateStealthScript`
(file `part_000`): the same gated blocks up to and including the three
unconditional pushes (WebGL vendor, user activation, connection); there are
no noise/behavior groups and no speech/gamepad/battery/clipboard pushes. -/
def stealthRecipesBasic (config : StealthConfig) : List Recipe :=
  (if config.webdriver ≠ some false then [.webdriver] else []) ++
  (if config.navigator ≠ some false then [.languagesLong, .language, .languagesShort] else []) ++
  (if config.navigatorPlatform ≠ some false then [.platform] else []) ++
  (if config.navigatorHardwareConcurrency ≠ some false then [.hardwareConcurrency] else []) ++
  (if config.navigatorDeviceMemory ≠ some false then [.deviceMemory] else []) ++
  (if config.screenWidth ≠ some false ∨ config.screenHeight ≠ some false ∨
      config.pixelRatio ≠ some false ∨ config.colorDepth ≠ some false then
    [.screenWidth, .screenHeight, .screenAvailWidth, .screenAvailHeight,
     .devicePixelRatio, .screenColorDepth] else []) ++
  (if config.touchSupport ≠ some false then [.maxTouchPoints, .touchSupport] else []) ++
  (if config.chromeRuntime ≠ some false then [.chromeRuntime] else []) ++
  (if config.permissions ≠ some false then [.permissions] else []) ++
  (if config.windowFrame ≠ some false then [.frameElement, .frames] else []) ++
  (if config.doNotTrack ≠ some false then [.doNotTrack] else []) ++
  (if config.plugins ≠ some false then [.plugins, .mimeTypes] else []) ++
  (if config.mediaDevices ≠ some false then [.mediaDevices] else []) ++
  [.webglVendor, .userActivation, .connection]

/-- Basic variant's `generateStealthScript(config)`. -/
def generateStealthScriptBasic (config : StealthConfig := defaultStealthConfig) : String :=
  String.intercalate "\n" ((stealthRecipesBasic config).map recipeText)

/-- State-threading view of the enhanced `generateStealthScript`: the result
together with the final value of the `config` object and of the randomization
stream.  The source body contains no assignment to `config` (it only reads
`config.key` fields) and no call to `Math.random` (every `Math.random` in the
file sits inside a pushed string literal), so both pieces of state pass
through unchanged. -/
def generateStealthScriptFull (config : StealthConfig) (r : Rand) :
    String × StealthConfig × Rand :=
  (generateStealthScript config, config, r)

/-- The `versions.chrome` pool of `generateRealisticUserAgent`. -/
def chromeVersions : List String := ["131.0.0.0", "132.0.0.0", "133.0.0.0"]

/-- The `versions.safari` pool of `generateRealisticUserAgent`. -/
def safariVersions : List String := ["605.1.15", "616.4.1", "617.1.15"]

/-- `generateRealisticUserAgent()`: draws `randomChrome` and `randomSafari`
from the two pools (`Math.floor(Math.random() * pool.length)` modelled as
`draw % pool.length`, same range) and returns the template with only
`randomChrome` interpolated — the source computes `randomSafari` but never
uses it; the `Safari/537.36` tail of the template is a fixed literal. -/
def generateRealisticUserAgent (r : Rand) : String :=
  let randomChrome := chromeVersions.getD (r 0 % chromeVersions.length) ""
  let randomSafari := safariVersions.getD (r 1 % safariVersions.length) ""
  let _ := randomSafari
  "Mozilla/5.0 (Windows NT 10.0; Win64; x64) AppleWebKit/537.36 (KHTML, like Gecko) Chrome/"
    ++ randomChrome ++ " Safari/537.36"

/-- The 40 static flags of the enhanced `generateStealthArgs`, in source
order (everything before the final `--user-agent=` entry). -/
def stealthStaticArgs : List String :=
  ["--disable-blink-features=AutomationControlled",
   "--disable-automation",
   "--enable-automation",
   "--disable-dev-shm-usage",
   "--no-sandbox",
   "--disable-setuid-sandbox",
   "--disable-gpu",
   "--disable-dev-shm-usage",
   "--disable-accelerated-2d-canvas",
   "--window-size=1920,1080",
   "--window-position=0,0",
   "--start-maximized",
   "--maximize",
   "--disable-web-security",
   "--disable-features=IsolateOrigins,site-per-process,TranslateUI",
   "--disable-benchmarking",
   "--disable-extensions",
   "--disable-background-networking",
   "--disable-sync",
   "--disable-translate",
   "--metrics-recording-only",
   "--mute-audio",
   "--safebrowsing-disable-auto-update",
   "--safebrowsing-disable-download-protection",
   "--password-store=basic",
   "--use-mock-keychain",
   "--disable-autofill-assistant",
   "--disable-password-generation",
   "--disable-save-password-bubble",
   "--disable-software-rasterizer",
   "--disable-accelerated-video-decode",
   "--disable-frame-rate-limit",
   "--ignore-gpu-blocklist",
   "--disable-ipc-flooding-protection",
   "--disable-prompt-on-repost",
   "--noerrdialogs",
   "--disable-breakpad",
   "--disable-logging",
   "--disable-metrics",
   "--disable-metrics-reporting"]

/-- Enhanced `generateStealthArgs()`: the static flags followed by the single
entry `'--user-agent=' + generateRealisticUserAgent()`. -/
def generateStealthArgs (r : Rand) : List String :=
  stealthStaticArgs ++ ["--user-agent=" ++ generateRealisticUserAgent r]

/-- Basic variant's `generateStealthArgs()` (file `part_000`): a fully static
19-flag list, with no user-agent entry. -/
def generateStealthArgsBasic : List String :=
  ["--disable-blink-features=AutomationControlled",
   "--disable-dev-shm-usage",
   "--no-sandbox",
   "--window-size=1920,1080",
   "--start-maximized",
   "--disable-web-security",
   "--disable-features=IsolateOrigins,site-per-process",
   "--disable-benchmarking",
   "--disable-extensions",
   "--disable-background-networking",
   "--disable-sync",
   "--disable-translate",
   "--metrics-recording-only",
   "--mute-audio",
   "--safebrowsing-disable-auto-update",
   "--enable-automation",
   "--disable-automation",
   "--password-store=basic",
   "--use-mock-keychain"]

/-! Helper lemmas and concrete inputs shared by the development. -/

lemma mem_ite_nil {α : Type} (c : Prop) [Decidable c] (l : List α) (x : α) :
    x ∈ (if c then l else []) ↔ c ∧ x ∈ l := by
  split
  · next h => simp [h]
  · next h => simp [h]

lemma getD_mod_mem (l : List String) (n : Nat) (h : l ≠ []) :
    l.getD (n % l.length) "" ∈ l := by
  have hl : 0 < l.length := List.length_pos.mpr h
  have h2 : n % l.length < l.length := Nat.mod_lt _ hl
  rw [List.getD_eq_getElem _ _ h2]
  exact List.getElem_mem h2

/-- Configuration whose only explicitly-set field is `colorDepth := false`. -/
def cfgColorDepthOff : StealthConfig := { colorDepth := some false }

/-- Configuration with every boolean field explicitly set to `false`. -/
def cfgAllFalse : StealthConfig :=
  { webdriver := some false
    navigator := some false
    navigatorLanguages := some false
    navigatorPlatform := some false
    navigatorHardwareConcurrency := some false
    navigatorDeviceMemory := some false
    screenWidth := some false
    screenHeight := some false
    pixelRatio := some false
    colorDepth := some false
    touchSupport := some false
    chromeRuntime := some false
    permissions := some false
    windowFrame := some false
    doNotTrack := some false
    plugins := some false
    mediaDevices := some false
    canvasNoise := some false
    webglNoise := some false
    audioContextNoise := some false
    behaviorRandomization := some false }

/-- Configuration whose only explicitly-set field is the custom user-agent. -/
def cfgCustomUA : StealthConfig := { customUserAgent := some "TestAgent/1.0" }

/-- Concrete randomization stream: every draw is `0`. -/
def randZero : Rand := fun _ => 0

/-- Concrete randomization stream differing from `randZero` exactly at draw 1
(the draw that selects the Safari version token). -/
def randSafariOne : Rand := fun k => if k = 1 then 1 else 0

/-- C1 (counterexample): in the configuration whose only explicit setting is
`colorDepth := false`, the screen-geometry `colorDepth` override recipe is
still included (in both variants), because the screen block is gated on the
disjunction of the four screen keys rather than on each key separately. -/
theorem colorDepth_false_still_included :
    cfgColorDepthOff.colorDepth = some false ∧
    Recipe.screenColorDepth ∈ stealthRecipes cfgColorDepthOff ∧
    Recipe.screenColorDepth ∈ stealthRecipesBasic cfgColorDepthOff := by
  refine ⟨rfl, ?_, ?_⟩ <;> decide

/-- C1 (amended): for every configuration, each gated patch group's recipes
appear in the enhanced generator's output exactly when its gating key is not
explicitly `false` — except that the six screen-geometry recipes form one
block gated on the disjunction of the four screen keys (`screenWidth`,
`screenHeight`, `pixelRatio`, `colorDepth`): the block is excluded only when
all four are explicitly `false`. -/
theorem stealth_group_gating (cfg : StealthConfig) :
    (Recipe.webdriver ∈ stealthRecipes cfg ↔ cfg.webdriver ≠ some false) ∧
    (Recipe.languagesLong ∈ stealthRecipes cfg ↔ cfg.navigator ≠ some false) ∧
    (Recipe.platform ∈ stealthRecipes cfg ↔ cfg.navigatorPlatform ≠ some false) ∧
    (Recipe.hardwareConcurrency ∈ stealthRecipes cfg ↔
      cfg.navigatorHardwareConcurrency ≠ some false) ∧
    (Recipe.deviceMemory ∈ stealthRecipes cfg ↔ cfg.navigatorDeviceMemory ≠ some false) ∧
    (Recipe.screenWidth ∈ stealthRecipes cfg ↔
      (cfg.screenWidth ≠ some false ∨ cfg.screenHeight ≠ some false ∨
        cfg.pixelRatio ≠ some false ∨ cfg.colorDepth ≠ some false)) ∧
    (Recipe.screenColorDepth ∈ stealthRecipes cfg ↔
      (cfg.screenWidth ≠ some false ∨ cfg.screenHeight ≠ some false ∨
        cfg.pixelRatio ≠ some false ∨ cfg.colorDepth ≠ some false)) ∧
    (Recipe.maxTouchPoints ∈ stealthRecipes cfg ↔ cfg.touchSupport ≠ some false) ∧
    (Recipe.chromeRuntime ∈ stealthRecipes cfg ↔ cfg.chromeRuntime ≠ some false) ∧
    (Recipe.permissions ∈ stealthRecipes cfg ↔ cfg.permissions ≠ some false) ∧
    (Recipe.frameElement ∈ stealthRecipes cfg ↔ cfg.windowFrame ≠ some false) ∧
    (Recipe.doNotTrack ∈ stealthRecipes cfg ↔ cfg.doNotTrack ≠ some false) ∧
    (Recipe.plugins ∈ stealthRecipes cfg ↔ cfg.plugins ≠ some false) ∧
    (Recipe.mediaDevices ∈ stealthRecipes cfg ↔ cfg.mediaDevices ≠ some false) ∧
    (Recipe.canvasNoise ∈ stealthRecipes cfg ↔ cfg.canvasNoise ≠ some false) ∧
    (Recipe.webglNoise ∈ stealthRecipes cfg ↔ cfg.webglNoise ≠ some false) ∧
    (Recipe.audioNoise ∈ stealthRecipes cfg ↔ cfg.audioContextNoise ≠ some false) ∧
    (Recipe.behavior ∈ stealthRecipes cfg ↔ cfg.behaviorRandomization ≠ some false) := by
  refine ⟨?_, ?_, ?_, ?_, ?_, ?_, ?_, ?_, ?_, ?_, ?_, ?_, ?_, ?_, ?_, ?_, ?_, ?_⟩ <;>
    simp [stealthRecipes, mem_ite_nil]

/-- C2 (counterexample, as negation): there is no configuration for which two
calls with different randomization streams give different payloads — the
payload is a deterministic function of the configuration, because no pushed
template interpolates a randomized value at generation time. -/
theorem no_rand_sensitive_config :
    ¬ ∃ (cfg : StealthConfig) (r₁ r₂ : Rand),
        (generateStealthScriptFull cfg r₁).1 ≠ (generateStealthScriptFull cfg r₂).1 := by
  rintro ⟨cfg, r₁, r₂, h⟩
  exact h rfl

/-- C2 (amended): for every configuration and any two states of the
randomization source, the payload returned by `generateStealthScript` is
identical — the generator consumes no randomness; the `Math.random` noise one
sees is literal text inside the payload, drawn only when the payload itself
later executes. -/
theorem generateStealthScript_deterministic (cfg : StealthConfig) (r₁ r₂ : Rand) :
    (generateStealthScriptFull cfg r₁).1 = (generateStealthScriptFull cfg r₂).1 := rfl

/-- C3: every flag list returned by the enhanced `generateStealthArgs`
contains the literal `--disable-blink-features=AutomationControlled`, and
contains the `--user-agent=` flag whose suffix is the fixed user-agent
template instantiated with a Chrome version drawn from the declared pool
`{131.0.0.0, 132.0.0.0, 133.0.0.0}`. -/
theorem stealthArgs_blink_and_userAgent (r : Rand) :
    "--disable-blink-features=AutomationControlled" ∈ generateStealthArgs r ∧
    ∃ v ∈ chromeVersions,
      ("--user-agent=" ++
        ("Mozilla/5.0 (Windows NT 10.0; Win64; x64) AppleWebKit/537.36 (KHTML, like Gecko) Chrome/"
          ++ v ++ " Safari/537.36")) ∈ generateStealthArgs r := by
  refine ⟨List.mem_append_left _ (by decide),
    chromeVersions.getD (r 0 % chromeVersions.length) "",
    getD_mod_mem chromeVersions (r 0) (by decide), ?_⟩
  exact List.mem_append_right _ (List.mem_singleton.mpr rfl)

/-- C4 (counterexample): two randomization streams that pick distinct Safari
version tokens (`605.1.15` versus `616.4.1`) yield the same identity string —
the chosen secondary token is never substituted into the template, whose
Safari component is the fixed literal `537.36`. -/
theorem safari_token_not_substituted :
    safariVersions.getD (randZero 1 % safariVersions.length) "" = "605.1.15" ∧
    safariVersions.getD (randSafariOne 1 % safariVersions.length) "" = "616.4.1" ∧
    safariVersions.getD (randZero 1 % safariVersions.length) "" ≠
      safariVersions.getD (randSafariOne 1 % safariVersions.length) "" ∧
    generateRealisticUserAgent randZero = generateRealisticUserAgent randSafariOne := by
  exact ⟨rfl, rfl, by decide, rfl⟩

/-- C4 (amended): the identity-string generator draws one token from each of
the two pools via the randomization source, but only the primary (Chrome)
token is substituted into the fixed template; the secondary (Safari) draw is
discarded and the template's Safari component is the literal `537.36`. -/
theorem generateRealisticUserAgent_spec (r : Rand) :
    generateRealisticUserAgent r =
      "Mozilla/5.0 (Windows NT 10.0; Win64; x64) AppleWebKit/537.36 (KHTML, like Gecko) Chrome/"
        ++ chromeVersions.getD (r 0 % chromeVersions.length) "" ++ " Safari/537.36" ∧
    chromeVersions.getD (r 0 % chromeVersions.length) "" ∈ chromeVersions :=
  ⟨rfl, getD_mod_mem chromeVersions (r 0) (by decide)⟩

/-- C5 (counterexample): setting the custom user-agent field changes nothing —
with `customUserAgent := "TestAgent/1.0"` the payload is identical to the
payload for the empty configuration, in both variants; the field is declared
in the interface but never read by the generator. -/
theorem customUserAgent_has_no_effect :
    cfgCustomUA.customUserAgent = some "TestAgent/1.0" ∧
    ({} : StealthConfig).customUserAgent = none ∧
    generateStealthScript cfgCustomUA = generateStealthScript {} ∧
    generateStealthScriptBasic cfgCustomUA = generateStealthScriptBasic {} :=
  ⟨rfl, rfl, rfl, rfl⟩

/-- C5 (amended): for every configuration and every string, setting the
`customUserAgent` field leaves the output of both variants of
`generateStealthScript` unchanged — the field gates and parameterizes no
patch group. -/
theorem generateStealthScript_ignores_customUserAgent (cfg : StealthConfig) (s : String) :
    generateStealthScript { cfg with customUserAgent := some s } = generateStealthScript cfg ∧
    generateStealthScriptBasic { cfg with customUserAgent := some s } =
      generateStealthScriptBasic cfg :=
  ⟨rfl, rfl⟩

/-- C6: with every boolean field explicitly `false`, the recipe sequence (and
hence the payload) still contains the unconditional WebGL-vendor,
user-activation and connection-information overrides, and does not contain
the conditional chrome-runtime object recipe — in both variants. -/
theorem allFalse_keeps_unconditional_groups :
    Recipe.webglVendor ∈ stealthRecipes cfgAllFalse ∧
    Recipe.userActivation ∈ stealthRecipes cfgAllFalse ∧
    Recipe.connection ∈ stealthRecipes cfgAllFalse ∧
    Recipe.chromeRuntime ∉ stealthRecipes cfgAllFalse ∧
    Recipe.webglVendor ∈ stealthRecipesBasic cfgAllFalse ∧
    Recipe.userActivation ∈ stealthRecipesBasic cfgAllFalse ∧
    Recipe.connection ∈ stealthRecipesBasic cfgAllFalse ∧
    Recipe.chromeRuntime ∉ stealthRecipesBasic cfgAllFalse := by
  decide

/-- C7: any two flag lists returned by the enhanced `generateStealthArgs`
have the same length, agree at every position other than position 40 (the
final entry), and position 40 is the one entry embedding the freshly
generated identity string. -/
theorem stealthArgs_static_except_userAgent (r₁ r₂ : Rand) :
    (generateStealthArgs r₁).length = (generateStealthArgs r₂).length ∧
    (∀ i : Nat, i ≠ 40 →
      (generateStealthArgs r₁).getD i "" = (generateStealthArgs r₂).getD i "") ∧
    (generateStealthArgs r₁).getD 40 "" = "--user-agent=" ++ generateRealisticUserAgent r₁ := by
  refine ⟨rfl, ?_, ?_⟩
  · intro i hi
    rcases Nat.lt_or_ge i 40 with h | h
    · have hl : i < stealthStaticArgs.length := by
        have h40 : stealthStaticArgs.length = 40 := rfl
        omega
      rw [generateStealthArgs, generateStealthArgs,
        List.getD_append _ _ _ _ hl, List.getD_append _ _ _ _ hl]
    · have h41 : i ≥ 41 := by omega
      have e₁ : (generateStealthArgs r₁).length ≤ i := by
        have : (generateStealthArgs r₁).length = 41 := rfl
        omega
      have e₂ : (generateStealthArgs r₂).length ≤ i := by
        have : (generateStealthArgs r₂).length = 41 := rfl
        omega
      rw [List.getD_eq_default _ _ e₁, List.getD_eq_default _ _ e₂]
  · rfl

/-- C7 (witness): the two concrete streams `randZero` and `randSafariOne`
agree at position 0 of the flag list. -/
theorem stealthArgs_static_except_userAgent_witness :
    (generateStealthArgs randZero).getD 0 "" = (generateStealthArgs randSafariOne).getD 0 "" :=
  (stealthArgs_static_except_userAgent randZero randSafariOne).2.1 0 (by decide)

/-- C8: the state-threading view of `generateStealthScript` returns the
configuration unchanged — the source body only reads `config` fields and
contains no assignment to them. -/
theorem generateStealthScript_preserves_config (cfg : StealthConfig) (r : Rand) :
    (generateStealthScriptFull cfg r).2.1 = cfg := rfl

/-- C9: both entry points are total — for every configuration value the
payload generator returns a string (always containing at least the
unconditional WebGL-vendor recipe), and the launch-argument generator always
returns its 41-entry flag list; neither has a failure branch. -/
theorem generators_are_total (cfg : StealthConfig) (r : Rand) :
    (∃ payload : String, generateStealthScript cfg = payload) ∧
    Recipe.webglVendor ∈ stealthRecipes cfg ∧
    (∃ args : List String, generateStealthArgs r = args) ∧
    (generateStealthArgs r).length = 41 := by
  refine ⟨⟨_, rfl⟩, ?_, ⟨_, rfl⟩, rfl⟩
  simp [stealthRecipes]

/-- C10: every flag list returned by `generateStealthArgs` contains both the
literal `--enable-automation` and the literal `--disable-automation`, in both
the enhanced and the basic variant. -/
theorem args_contain_enable_and_disable_automation (r : Rand) :
    "--enable-automation" ∈ generateStealthArgs r ∧
    "--disable-automation" ∈ generateStealthArgs r ∧
    "--enable-automation" ∈ generateStealthArgsBasic ∧
    "--disable-automation" ∈ generateStealthArgsBasic :=
  ⟨List.mem_append_left _ (by decide), List.mem_append_left _ (by decide),
    by decide, by decide⟩

end AgentBrowser
